import Mathlib

/-!
Verification development for the `tauri-youtube-oauth` OAuth token
lifecycle manager (`src-tauri/src/main.rs`).

The shallow embedding models:
* `Tokens` / `AppConfig` — the two persisted records (serde structs).
* JSON provider responses as flat JSON objects (`List (String × JVal)`);
  every response the token endpoint produces in this program is a flat
  object of strings and unsigned integers, and `serde_json::Value::get`
  / `as_str` / `as_u64` are modelled accordingly.
* The persisted file as a `FileState`; `fs::write` is modelled as the
  two-step "truncate in place, then write all bytes" sequence it
  performs, so that interruption mid-write is expressible
  (an interrupted write leaves a truncated file, and a proper prefix of
  a pretty-printed JSON document never parses, hence reads as `none`).
* Network effects as an `Except String Json` argument: `.error e` is a
  transport/decode failure of the HTTP round trip, `.ok j` a decoded
  JSON body.  Time is a `Nat` argument standing for `now_secs()`.
* The fallible persist step of the refresh path
  (`write_tokens(&app, &t)?`, main.rs line 171) as a `WriteOutcome`
  argument: the save either completes, or fails with an error after a
  prefix of its file-system steps has executed (so a write that fails
  after truncating the store is expressible).
-/

namespace YtOauth

/-- A JSON scalar value, as the token endpooint responses use them.
Numbers are modelled as `Nat` (the source only extracts them with
`serde_json::Value::as_u64`). -/
inductive JVal where
  | nul
  | boolean (b : Bool)
  | num (n : Nat)
  | str (s : String)
deriving Repr, DecidableEq

/-- A flat JSON object: what `resp.json::<serde_json::Value>()` yields for
every token-endpoint response this program handles. -/
abbrev Json := List (String × JVal)

/-- `serde_json::Value::get(key)` on an object. -/
def jget (j : Json) (k : String) : Option JVal :=
  (j.find? (fun p => p.1 == k)).map Prod.snd

/-- `serde_json::Value::as_str`. -/
def JVal.asStr : JVal → Option String
  | .str s => some s
  | _ => none

/-- `serde_json::Value::as_u64`. -/
def JVal.asU64 : JVal → Option Nat
  | .num n => some n
  | _ => none

/-- Compact rendering of a scalar, as serde's `Display` prints it. -/
def JVal.render : JVal → String
  | .nul => "null"
  | .boolean b => if b then "true" else "false"
  | .num n => toString n
  | .str s => "\"" ++ s ++ "\""

/-- Compact rendering of a flat object, as `format!("\x7b\x7d", json)`
prints a `serde_json::Value` (braces written as escapes). -/
def renderJson (j : Json) : String :=
  "\x7b" ++ String.intercalate "," (j.map (fun p => "\"" ++ p.1 ++ "\":" ++ p.2.render)) ++ "\x7d"

/-- The persisted token record (`struct Tokens`, main.rs lines 8–16).
`expires_in` and `created_at` carry `#[serde(default)]`. -/
structure Tokens where
  access_token : String
  refresh_token : String
  expires_in : Nat
  created_at : Nat
deriving Repr, DecidableEq

/-- The persisted client-credential record (`struct AppConfig`,
main.rs lines 18–22). -/
structure AppConfig where
  client_id : String
  client_secret : String
deriving Repr, DecidableEq

/-- Serialization of `Tokens` as the derived `Serialize` emits it. -/
def Tokens.toJson (t : Tokens) : Json :=
  [("access_token", .str t.access_token),
   ("refresh_token", .str t.refresh_token),
   ("expires_in", .num t.expires_in),
   ("created_at", .num t.created_at)]

/-- Deserialization of `Tokens` as the derived `Deserialize` accepts it:
the two string fields are required, `expires_in`/`created_at` default
to `0` when absent (`#[serde(default)]`) but must be unsigned integers
when present. -/
def Tokens.fromJson (j : Json) : Option Tokens := do
  let a ← (jget j "access_token").bind JVal.asStr
  let r ← (jget j "refresh_token").bind JVal.asStr
  let e ← match jget j "expires_in" with
    | none => some 0
    | some v => v.asU64
  let c ← match jget j "created_at" with
    | none => some 0
    | some v => v.asU64
  some { access_token := a, refresh_token := r, expires_in := e, created_at := c }

/-- Serialization of `AppConfig` as the derived `Serialize` emits it. -/
def AppConfig.toJson (c : AppConfig) : Json :=
  [("client_id", .str c.client_id),
   ("client_secret", .str c.client_secret)]

/-- Deserialization of `AppConfig`: both string fields required. -/
def AppConfig.fromJson (j : Json) : Option AppConfig := do
  let i ← (jget j "client_id").bind JVal.asStr
  let s ← (jget j "client_secret").bind JVal.asStr
  some { client_id := i, client_secret := s }

/-- State of one persisted JSON file.  `truncated` is the state after
`fs::write` has opened the target with `O_TRUNC` but before the new
bytes are durably written: the file holds a (possibly empty) proper
prefix of a pretty-printed JSON document, which `serde_json::from_str`
rejects. -/
inductive FileState where
  | absent
  | truncated
  | complete (j : Json)
deriving Repr, DecidableEq

/-- One file-system step of a save. -/
inductive FsOp where
  | createDirAll
  | truncateFile
  | writeAll (j : Json)
deriving Repr, DecidableEq

/-- Effect of one step on the target file. -/
def applyOp : FileState → FsOp → FileState
  | s, .createDirAll => s
  | _, .truncateFile => .truncated
  | _, .writeAll j => .complete j

def runOps (s : FileState) (ops : List FsOp) : FileState :=
  ops.foldl applyOp s

/-- The step sequence of `write_tokens_to_dir` (main.rs lines 57–62):
`fs::create_dir_all(dir)` then `fs::write(dir/"tokens.json", pretty(t))`,
the write being an in-place truncate-then-write of the final path —
there is no temporary file and no rename. -/
def write_tokens_ops (t : Tokens) : List FsOp :=
  [.createDirAll, .truncateFile, .writeAll t.toJson]

/-- `write_tokens_to_dir` run to completion. -/
def write_tokens_to_dir (s : FileState) (t : Tokens) : FileState :=
  runOps s (write_tokens_ops t)

/-- `read_tokens_from_dir` (main.rs lines 51–55): read the file and
parse; any failure (missing file, truncated/corrupt content, failed
parse) yields `none` via the `ok()?` chain. -/
def read_tokens_from_dir : FileState → Option Tokens
  | .complete j => Tokens.fromJson j
  | _ => none

/-- The step sequence of `write_config_to_dir` (main.rs lines 44–49). -/
def write_config_ops (c : AppConfig) : List FsOp :=
  [.createDirAll, .truncateFile, .writeAll c.toJson]

/-- `write_config_to_dir` run to completion. -/
def write_config_to_dir (s : FileState) (c : AppConfig) : FileState :=
  runOps s (write_config_ops c)

/-- `read_config_from_dir` (main.rs lines 38–42). -/
def read_config_from_dir : FileState → Option AppConfig
  | .complete j => AppConfig.fromJson j
  | _ => none

/-- Outcome of one attempted save of the tokens file: either every
step completed, or the save failed with error `e` after only the first
`k` of its file-system steps had executed (e.g. `fs::write` opening
with `O_TRUNC` and then failing in `write_all`: `k = 2`, the file left
truncated). -/
inductive WriteOutcome where
  | ok
  | failAfter (k : Nat) (e : String)
deriving Repr, DecidableEq

/-- Result and final file state of `write_tokens_to_dir` under a given
write outcome: a completed save is the full `write_tokens_ops`
sequence, a failed one has executed only a prefix of it. -/
def write_tokens_result (s : FileState) (t : Tokens) :
    WriteOutcome → Except String Unit × FileState
  | .ok => (Except.ok (), write_tokens_to_dir s t)
  | .failAfter k e => (Except.error e, runOps s ((write_tokens_ops t).take k))

/-- `perform_token_exchange` (main.rs lines 73–89), as a function of the
network outcome and the current time.  `net = .error e` is a failed
`send()`/`json()` round trip (its error string propagated by
`map_err(..)?`); `net = .ok json` is the decoded response body.
The access/refresh strings come from `get(..).and_then(as_str)` with
`unwrap_or_default()`, `expires_in` from `as_u64` with `unwrap_or(0)`;
an empty access token is rejected with the raw response in the message,
otherwise a record stamped `created_at = now_secs()` is returned. -/
def perform_token_exchange (net : Except String Json) (now : Nat) : Except String Tokens :=
  match net with
  | .error e => .error e
  | .ok json =>
    let access := ((jget json "access_token").bind JVal.asStr).getD ""
    let refresh := ((jget json "refresh_token").bind JVal.asStr).getD ""
    let expires_in := ((jget json "expires_in").bind JVal.asU64).getD 0
    if access.isEmpty then
      .error ("Błąd wymiany tokenów: " ++ renderJson json)
    else
      .ok { access_token := access, refresh_token := refresh,
            expires_in := expires_in, created_at := now }

/-- `exchange_and_persist` (main.rs lines 91–97): read the client
config (error if absent), perform the exchange, persist on success.
Returns the command result together with the final tokens-file state. -/
def exchange_and_persist (cfgFs tokFs : FileState) (net : Except String Json) (now : Nat) :
    Except String Tokens × FileState :=
  match read_config_from_dir cfgFs with
  | none => (.error ("Brak konfiguracji klienta"), tokFs)
  | some _cfg =>
    match perform_token_exchange net now with
    | .error e => (.error e, tokFs)
    | .ok t => (.ok t, write_tokens_to_dir tokFs t)

/-- `check_tokens` (main.rs lines 139–142):
`Ok(read_tokens(&app).unwrap_or_default())`. -/
def check_tokens (tokFs : FileState) : Except String Tokens :=
  .ok ((read_tokens_from_dir tokFs).getD
    { access_token := "", refresh_token := "", expires_in := 0, created_at := 0 })

/-- `refresh_tokens` (main.rs lines 145–173), as a function of the two
file states, the network outcome, the current time and the outcome of
the final persist step (`write_tokens(&app, &t)?`, line 171).  The
result is `(command result, final tokens-file state, network call was
made)`.  The guard on an empty stored `refresh_token` comes before the
request is built, so it returns with the network flag `false`; on a
successful response only `access_token`, `expires_in` and `created_at`
of the stored record are mutated before persisting — the response's
`refresh_token` field is never read.  A failing persist propagates its
error through the `?`, leaving whatever file state the partial write
produced. -/
def refresh_tokens (cfgFs tokFs : FileState) (net : Except String Json) (now : Nat)
    (w : WriteOutcome) : Except String Tokens × FileState × Bool :=
  match read_config_from_dir cfgFs with
  | none => (.error ("Brak konfiguracji klienta"), tokFs, false)
  | some _cfg =>
    match read_tokens_from_dir tokFs with
    | none => (.error ("Brak zapisanych tokenów"), tokFs, false)
    | some t =>
      if t.refresh_token.isEmpty then
        (.error ("Brak refresh_token — zaloguj się ponownie"), tokFs, false)
      else
        match net with
        | .error e => (.error e, tokFs, true)
        | .ok json =>
          let access := ((jget json "access_token").bind JVal.asStr).getD ""
          let expires_in := ((jget json "expires_in").bind JVal.asU64).getD 0
          if access.isEmpty then
            (.error ("Błąd odświeżania: " ++ renderJson json), tokFs, true)
          else
            let t2 : Tokens :=
              { t with access_token := access, expires_in := expires_in, created_at := now }
            match write_tokens_result tokFs t2 w with
            | (Except.error e, fs2) => (.error e, fs2, true)
            | (Except.ok _, fs2) => (.ok t2, fs2, true)

/-- The staleness test of `youtube_list_channels` (main.rs line 179):
`t.expires_in > 0 && now_secs().saturating_sub(t.created_at) + 60 > t.expires_in`
(`Nat` subtraction is saturating, matching `saturating_sub`). -/
def needs_refresh (t : Tokens) (now : Nat) : Bool :=
  t.expires_in > 0 && (now - t.created_at) + 60 > t.expires_in

/-- The expiry policy exactly as the spec words it (§4.3 ExpiryPolicy):
`expires_in_seconds > 0 AND now - issued_at + 60 >= expires_in_seconds`,
with the NON-strict comparison.  Declared separately from the code's
`needs_refresh` so the two can be compared; the code's test is strict. -/
def needs_refresh_spec (t : Tokens) (now : Nat) : Bool :=
  t.expires_in > 0 && (now - t.created_at) + 60 ≥ t.expires_in

/-- The token-acquisition phase of `youtube_list_channels` (main.rs
lines 176–182), up to the point where the request bearing
`t.access_token` is issued.  Result: `(token the API call proceeds
with — or the command error, final tokens-file state, a proactive
refresh was attempted)`.  A stale record triggers
`let _ = refresh_tokens(..).await` whose error is discarded, followed
by a re-read of the store; `w` is the outcome of the refresh's persist
step, should the refresh reach it. -/
def youtube_list_channels (cfgFs tokFs : FileState) (net : Except String Json) (now : Nat)
    (w : WriteOutcome) : Except String Tokens × FileState × Bool :=
  match read_tokens_from_dir tokFs with
  | none => (.error ("Brak tokenów — zaloguj się"), tokFs, false)
  | some t =>
    if needs_refresh t now then
      let r := refresh_tokens cfgFs tokFs net now w
      match read_tokens_from_dir r.2.1 with
      | none => (.error ("Brak tokenów po odświeżeniu"), r.2.1, true)
      | some t2 => (.ok t2, r.2.1, true)
    else
      (.ok t, tokFs, false)

/-- The fixed confirmation page the callback route always replies with
(main.rs line 250). -/
def confirmation_html : String :=
  "<html><body><h2>Autoryzacja zakończona. Możesz zamknąć to okno.</h2></body></html>"

/-- The callback route handler (main.rs lines 236–251) together with
the effect of the task it spawns.  `params` is the decoded query map.
When a `code` parameter is present the spawned task runs
`exchange_and_persist`; on its success the handler's task writes the
(identical) token record to `tokens.json` once more (line 246); on its
failure nothing is written.  In every case the reply body is the fixed
HTML page.  Result: `(reply body, final tokens-file state, an exchange
was attempted)`. -/
def callback_handler (params : List (String × String)) (cfgFs tokFs : FileState)
    (net : Except String Json) (now : Nat) : String × FileState × Bool :=
  match (params.find? (fun p => p.1 == "code")).map Prod.snd with
  | none => (confirmation_html, tokFs, false)
  | some _code =>
    let r := exchange_and_persist cfgFs tokFs net now
    match r.1 with
    | .error _ => (confirmation_html, r.2, true)
    | .ok t => (confirmation_html, runOps r.2 [.truncateFile, .writeAll t.toJson], true)

/-- C1 counterexample: at `expires_in = 3600`, `created_at = now - 3540`
the spec's non-strict formula (`elapsed + 60 ≥ expires_in`) says a
proactive refresh is needed, yet the authenticated call attempts no
refresh — the code's test (main.rs line 179) is strict (`>`). -/
theorem c1_spec_formula_vs_code_boundary :
    needs_refresh_spec ⟨"A", "R", 3600, 0⟩ 3540 = true
    ∧ (youtube_list_channels FileState.absent
        (FileState.complete (Tokens.toJson ⟨"A", "R", 3600, 0⟩))
        (Except.error ("no net")) 3540 WriteOutcome.ok).2.2 = false :=
  ⟨by decide, rfl⟩

/-- C1 amended: the authenticated call attempts a proactive refresh
exactly when `expires_in > 0 AND now - created_at + 60 > expires_in`
(STRICT comparison, saturating subtraction); a record with
`expires_in = 0` never triggers one, and the two boundary examples of
the spec (elapsed 3541 → true, elapsed 3500 → false) hold. -/
theorem c1_amended_refresh_policy :
    (∀ (cfgFs tokFs : FileState) (net : Except String Json) (now : Nat) (w : WriteOutcome)
       (t : Tokens),
      read_tokens_from_dir tokFs = some t →
      (youtube_list_channels cfgFs tokFs net now w).2.2 = needs_refresh t now)
    ∧ (∀ (t : Tokens) (now : Nat),
        needs_refresh t now = true ↔ t.expires_in > 0 ∧ (now - t.created_at) + 60 > t.expires_in)
    ∧ (∀ (t : Tokens) (now : Nat), t.expires_in = 0 → needs_refresh t now = false)
    ∧ needs_refresh ⟨"A", "R", 3600, 0⟩ 3541 = true
    ∧ needs_refresh ⟨"A", "R", 3600, 0⟩ 3500 = false := by
  refine ⟨?_, ?_, ?_, by decide, by decide⟩
  · intro cfgFs tokFs net now w t htok
    unfold youtube_list_channels
    rw [htok]
    cases hb : needs_refresh t now with
    | false => simp [hb]
    | true =>
      simp only [hb, if_true]
      cases read_tokens_from_dir (refresh_tokens cfgFs tokFs net now w).2.1 <;> rfl
  · intro t now
    simp [needs_refresh]
  · intro t now h
    simp [needs_refresh, h]

/-- C1 amended, witness: concrete instance of the refresh-attempt
equation at elapsed 3541 seconds. -/
theorem c1_amended_refresh_policy_witness :
    (youtube_list_channels FileState.absent
      (FileState.complete (Tokens.toJson ⟨"A", "R", 3600, 0⟩))
      (Except.error ("e")) 3541 WriteOutcome.ok).2.2
      = needs_refresh ⟨"A", "R", 3600, 0⟩ 3541 :=
  c1_amended_refresh_policy.1 FileState.absent
    (FileState.complete (Tokens.toJson ⟨"A", "R", 3600, 0⟩))
    (Except.error ("e")) 3541 WriteOutcome.ok ⟨"A", "R", 3600, 0⟩ rfl

/-- C2 counterexample: stored refresh token `R0`; the provider's refresh
response DOES contain a new `refresh_token` `R1`, yet both the returned
and the persisted record still carry `R0` — `refresh_tokens` never
reads the response's `refresh_token` field. -/
theorem c2_new_refresh_token_from_provider_ignored :
    (refresh_tokens (FileState.complete (AppConfig.toJson ⟨"cid", "sec"⟩))
      (FileState.complete (Tokens.toJson ⟨"A0", "R0", 3600, 0⟩))
      (Except.ok [("access_token", JVal.str "A1"), ("refresh_token", JVal.str "R1"),
                  ("expires_in", JVal.num 3600)]) 100 WriteOutcome.ok).1
      = Except.ok ⟨"A1", "R0", 3600, 100⟩
    ∧ read_tokens_from_dir (refresh_tokens (FileState.complete (AppConfig.toJson ⟨"cid", "sec"⟩))
        (FileState.complete (Tokens.toJson ⟨"A0", "R0", 3600, 0⟩))
        (Except.ok [("access_token", JVal.str "A1"), ("refresh_token", JVal.str "R1"),
                    ("expires_in", JVal.num 3600)]) 100 WriteOutcome.ok).2.1
      = some ⟨"A1", "R0", 3600, 100⟩
    ∧ ("R0" : String) ≠ "R1" :=
  ⟨rfl, rfl, by decide⟩

/-- C2 amended: on every successful refresh the persisted record's
`refresh_token` ALWAYS equals the previously stored one (a
`refresh_token` in the provider response is ignored, not adopted);
`access_token`, `expires_in` and the issue timestamp are updated. -/
theorem c2_amended_refresh_token_always_preserved
    (cfgFs tokFs : FileState) (json : Json) (now : Nat) (c : AppConfig) (t : Tokens)
    (hcfg : read_config_from_dir cfgFs = some c)
    (htok : read_tokens_from_dir tokFs = some t)
    (hrt : t.refresh_token ≠ "")
    (ha : ((jget json "access_token").bind JVal.asStr).getD "" ≠ "") :
    ∃ t2 : Tokens,
      refresh_tokens cfgFs tokFs (Except.ok json) now WriteOutcome.ok
        = (Except.ok t2, write_tokens_to_dir tokFs t2, true)
      ∧ t2.refresh_token = t.refresh_token
      ∧ t2.access_token = ((jget json "access_token").bind JVal.asStr).getD ""
      ∧ t2.expires_in = ((jget json "expires_in").bind JVal.asU64).getD 0
      ∧ t2.created_at = now
      ∧ read_tokens_from_dir (refresh_tokens cfgFs tokFs (Except.ok json) now
          WriteOutcome.ok).2.1 = some t2 := by
  have hrt' : t.refresh_token.isEmpty = false := by
    cases h : t.refresh_token.isEmpty with
    | false => rfl
    | true => exact absurd ((String.isEmpty_iff _).mp h) hrt
  have ha' : (((jget json "access_token").bind JVal.asStr).getD "").isEmpty = false := by
    cases h : (((jget json "access_token").bind JVal.asStr).getD "").isEmpty with
    | false => rfl
    | true => exact absurd ((String.isEmpty_iff _).mp h) ha
  have heq : refresh_tokens cfgFs tokFs (Except.ok json) now WriteOutcome.ok
      = (Except.ok { access_token := ((jget json "access_token").bind JVal.asStr).getD "",
                     refresh_token := t.refresh_token,
                     expires_in := ((jget json "expires_in").bind JVal.asU64).getD 0,
                     created_at := now },
         write_tokens_to_dir tokFs
           { access_token := ((jget json "access_token").bind JVal.asStr).getD "",
             refresh_token := t.refresh_token,
             expires_in := ((jget json "expires_in").bind JVal.asU64).getD 0,
             created_at := now },
         true) := by
    simp [refresh_tokens, write_tokens_result, hcfg, htok, hrt', ha']
  exact ⟨_, heq, rfl, rfl, rfl, rfl, by rw [heq]; rfl⟩

/-- C2 amended, witness: provider response omitting `refresh_token`;
the persisted record keeps `R0` (the spec's own example). -/
theorem c2_amended_refresh_token_always_preserved_witness :
    ∃ t2 : Tokens,
      refresh_tokens (FileState.complete (AppConfig.toJson ⟨"cid", "sec"⟩))
          (FileState.complete (Tokens.toJson ⟨"A0", "R0", 3600, 0⟩))
          (Except.ok [("access_token", JVal.str "A1"), ("expires_in", JVal.num 1800)]) 42
          WriteOutcome.ok
        = (Except.ok t2,
           write_tokens_to_dir (FileState.complete (Tokens.toJson ⟨"A0", "R0", 3600, 0⟩)) t2,
           true)
      ∧ t2.refresh_token = "R0"
      ∧ t2.access_token = "A1"
      ∧ t2.expires_in = 1800
      ∧ t2.created_at = 42
      ∧ read_tokens_from_dir (refresh_tokens (FileState.complete (AppConfig.toJson ⟨"cid", "sec"⟩))
          (FileState.complete (Tokens.toJson ⟨"A0", "R0", 3600, 0⟩))
          (Except.ok [("access_token", JVal.str "A1"), ("expires_in", JVal.num 1800)]) 42
          WriteOutcome.ok).2.1
          = some t2 :=
  c2_amended_refresh_token_always_preserved
    (FileState.complete (AppConfig.toJson ⟨"cid", "sec"⟩))
    (FileState.complete (Tokens.toJson ⟨"A0", "R0", 3600, 0⟩))
    [("access_token", JVal.str "A1"), ("expires_in", JVal.num 1800)] 42
    ⟨"cid", "sec"⟩ ⟨"A0", "R0", 3600, 0⟩ rfl rfl (by decide) (by decide)

/-- C3 counterexample: a refresh attempt that fails at the persist
step (main.rs line 171, `write_tokens(&app, &t)?` failing after
`fs::write` has truncated `tokens.json`) refutes "fails for any
reason → proceeds with the stale set": the stored record was readable
and stale, the refresh error is swallowed, but the re-read at main.rs
line 181 finds a truncated file and the call fails with the
no-tokens-after-refresh error instead of proceeding. -/
theorem c3_persist_failure_fails_call :
    read_tokens_from_dir (FileState.complete (Tokens.toJson ⟨"A0", "R0", 3600, 0⟩))
      = some ⟨"A0", "R0", 3600, 0⟩
    ∧ needs_refresh ⟨"A0", "R0", 3600, 0⟩ 4000 = true
    ∧ (refresh_tokens (FileState.complete (AppConfig.toJson ⟨"cid", "sec"⟩))
        (FileState.complete (Tokens.toJson ⟨"A0", "R0", 3600, 0⟩))
        (Except.ok [("access_token", JVal.str "A1"), ("expires_in", JVal.num 3600)]) 4000
        (WriteOutcome.failAfter 2 ("No space left on device"))).1
      = Except.error ("No space left on device")
    ∧ youtube_list_channels (FileState.complete (AppConfig.toJson ⟨"cid", "sec"⟩))
        (FileState.complete (Tokens.toJson ⟨"A0", "R0", 3600, 0⟩))
        (Except.ok [("access_token", JVal.str "A1"), ("expires_in", JVal.num 3600)]) 4000
        (WriteOutcome.failAfter 2 ("No space left on device"))
      = (Except.error ("Brak tokenów po odświeżeniu"), FileState.truncated, true) :=
  ⟨rfl, by decide, rfl, rfl⟩

/-- C3 amended: when the stored record is stale and the proactive
refresh fails in a way that leaves the stored token set unchanged —
every failure except one inside the persist step: missing config,
unreadable store, empty refresh token, transport failure, provider
rejection — `youtube_list_channels` swallows the error and proceeds
with the previously stored (stale) record, the store untouched. -/
theorem c3_stale_token_reused_on_refresh_failure
    (cfgFs tokFs : FileState) (net : Except String Json) (now : Nat) (w : WriteOutcome)
    (t : Tokens) (e : String)
    (htok : read_tokens_from_dir tokFs = some t)
    (hstale : needs_refresh t now = true)
    (hfail : (refresh_tokens cfgFs tokFs net now w).1 = Except.error e)
    (hkeep : (refresh_tokens cfgFs tokFs net now w).2.1 = tokFs) :
    youtube_list_channels cfgFs tokFs net now w = (Except.ok t, tokFs, true) := by
  unfold youtube_list_channels
  rw [htok]
  simp only [hstale, if_true, hkeep, htok]

/-- C3 amended, witness: missing client config makes the refresh fail
before anything is written; the call proceeds with the stale record. -/
theorem c3_stale_token_reused_on_refresh_failure_witness :
    youtube_list_channels FileState.absent
      (FileState.complete (Tokens.toJson ⟨"A", "R", 3600, 0⟩))
      (Except.error ("down")) 4000 WriteOutcome.ok
    = (Except.ok ⟨"A", "R", 3600, 0⟩,
       FileState.complete (Tokens.toJson ⟨"A", "R", 3600, 0⟩), true) :=
  c3_stale_token_reused_on_refresh_failure FileState.absent
    (FileState.complete (Tokens.toJson ⟨"A", "R", 3600, 0⟩))
    (Except.error ("down")) 4000 WriteOutcome.ok ⟨"A", "R", 3600, 0⟩
    "Brak konfiguracji klienta" rfl (by decide) rfl rfl

/-- C4: a code-exchange response without a non-empty `access_token`
string yields the provider-rejection error carrying the rendered raw
response, and the tokens file is never written. -/
theorem c4_exchange_provider_rejection_no_write
    (json : Json) (now : Nat)
    (ha : ((jget json "access_token").bind JVal.asStr).getD "" = "") :
    perform_token_exchange (Except.ok json) now
      = Except.error ("Błąd wymiany tokenów: " ++ renderJson json)
    ∧ ∀ cfgFs tokFs : FileState,
        (exchange_and_persist cfgFs tokFs (Except.ok json) now).2 = tokFs := by
  have he : "".isEmpty = true := rfl
  have h1 : perform_token_exchange (Except.ok json) now
      = Except.error ("Błąd wymiany tokenów: " ++ renderJson json) := by
    simp [perform_token_exchange, ha, he]
  refine ⟨h1, fun cfgFs tokFs => ?_⟩
  unfold exchange_and_persist
  cases read_config_from_dir cfgFs <;> simp [h1]

/-- C4 witness: the spec's own example, a response carrying only
an `error` field. -/
theorem c4_exchange_provider_rejection_no_write_witness :
    perform_token_exchange (Except.ok [("error", JVal.str "invalid_grant")]) 5
      = Except.error ("Błąd wymiany tokenów: " ++ renderJson [("error", JVal.str "invalid_grant")])
    ∧ ∀ cfgFs tokFs : FileState,
        (exchange_and_persist cfgFs tokFs (Except.ok [("error", JVal.str "invalid_grant")]) 5).2
          = tokFs :=
  c4_exchange_provider_rejection_no_write [("error", JVal.str "invalid_grant")] 5 rfl

/-- C5 counterexample: a save interrupted right after `fs::write` has
truncated `tokens.json` leaves the file truncated — the previously
stored record (readable before the save) is no longer intact or
readable, refuting the all-or-nothing claim. -/
theorem c5_interrupted_save_loses_old_record :
    read_tokens_from_dir (FileState.complete (Tokens.toJson ⟨"A0", "R0", 3600, 0⟩))
      = some ⟨"A0", "R0", 3600, 0⟩
    ∧ runOps (FileState.complete (Tokens.toJson ⟨"A0", "R0", 3600, 0⟩))
        ((write_tokens_ops ⟨"A1", "R1", 1800, 9⟩).take 2) = FileState.truncated
    ∧ read_tokens_from_dir FileState.truncated = none :=
  ⟨rfl, rfl, rfl⟩

/-- C5 amended: save is an in-place overwrite (create dir, truncate,
write) with no temporary file and no atomic replace; a COMPLETED save
leaves exactly the new record readable, but an interruption after the
truncation step leaves the file truncated and no record readable. -/
theorem c5_amended_save_in_place_overwrite (s : FileState) (t : Tokens) :
    write_tokens_to_dir s t = FileState.complete t.toJson
    ∧ read_tokens_from_dir (write_tokens_to_dir s t) = some t
    ∧ runOps s ((write_tokens_ops t).take 2) = FileState.truncated
    ∧ read_tokens_from_dir (runOps s ((write_tokens_ops t).take 2)) = none := by
  refine ⟨rfl, rfl, ?_, ?_⟩ <;> cases s <;> rfl

/-- C6: a code-exchange response with a non-empty `access_token` string
succeeds; the returned record copies the response's string fields,
defaults `refresh_token` to `""` and `expires_in` to `0` when omitted,
and is stamped with the current time. -/
theorem c6_exchange_success_fields
    (json : Json) (now : Nat) (a : String)
    (hacc : jget json "access_token" = some (JVal.str a))
    (hne : a ≠ "") :
    ∃ t : Tokens,
      perform_token_exchange (Except.ok json) now = Except.ok t
      ∧ t.access_token = a
      ∧ t.created_at = now
      ∧ (∀ r : String, jget json "refresh_token" = some (JVal.str r) → t.refresh_token = r)
      ∧ (jget json "refresh_token" = none → t.refresh_token = "")
      ∧ (∀ e : Nat, jget json "expires_in" = some (JVal.num e) → t.expires_in = e)
      ∧ (jget json "expires_in" = none → t.expires_in = 0) := by
  have hne' : a.isEmpty = false := by
    cases h : a.isEmpty with
    | false => rfl
    | true => exact absurd ((String.isEmpty_iff _).mp h) hne
  refine ⟨{ access_token := a,
            refresh_token := ((jget json "refresh_token").bind JVal.asStr).getD "",
            expires_in := ((jget json "expires_in").bind JVal.asU64).getD 0,
            created_at := now }, ?_, rfl, rfl, ?_, ?_, ?_, ?_⟩
  · simp [perform_token_exchange, hacc, JVal.asStr, hne']
  · intro r hr
    simp [hr, JVal.asStr]
  · intro hr
    simp [hr]
  · intro e he
    simp [he, JVal.asU64]
  · intro he
    simp [he]

/-- C6 witness: the spec's own example response
`access_token = "A"`, `refresh_token = "R"`, `expires_in = 3600`. -/
theorem c6_exchange_success_fields_witness :
    ∃ t : Tokens,
      perform_token_exchange (Except.ok [("access_token", JVal.str "A"),
        ("refresh_token", JVal.str "R"), ("expires_in", JVal.num 3600)]) 1000 = Except.ok t
      ∧ t.access_token = "A"
      ∧ t.created_at = 1000
      ∧ (∀ r : String, jget [("access_token", JVal.str "A"), ("refresh_token", JVal.str "R"),
            ("expires_in", JVal.num 3600)] "refresh_token" = some (JVal.str r) →
          t.refresh_token = r)
      ∧ (jget [("access_token", JVal.str "A"), ("refresh_token", JVal.str "R"),
            ("expires_in", JVal.num 3600)] "refresh_token" = none → t.refresh_token = "")
      ∧ (∀ e : Nat, jget [("access_token", JVal.str "A"), ("refresh_token", JVal.str "R"),
            ("expires_in", JVal.num 3600)] "expires_in" = some (JVal.num e) → t.expires_in = e)
      ∧ (jget [("access_token", JVal.str "A"), ("refresh_token", JVal.str "R"),
            ("expires_in", JVal.num 3600)] "expires_in" = none → t.expires_in = 0) :=
  c6_exchange_success_fields [("access_token", JVal.str "A"), ("refresh_token", JVal.str "R"),
    ("expires_in", JVal.num 3600)] 1000 "A" rfl (by decide)

/-- C7: a stored record whose `refresh_token` is empty makes the
refresh fail with the no-refresh-token error before any network call
(flag `false`), the stored record unchanged. -/
theorem c7_refresh_empty_token_fails_before_network
    (cfgFs tokFs : FileState) (net : Except String Json) (now : Nat) (w : WriteOutcome)
    (c : AppConfig) (t : Tokens)
    (hcfg : read_config_from_dir cfgFs = some c)
    (htok : read_tokens_from_dir tokFs = some t)
    (hrt : t.refresh_token = "") :
    refresh_tokens cfgFs tokFs net now w
      = (Except.error ("Brak refresh_token — zaloguj się ponownie"), tokFs, false) := by
  have he : "".isEmpty = true := rfl
  simp [refresh_tokens, hcfg, htok, hrt, he]

/-- C7 witness: concrete store with an empty refresh token. -/
theorem c7_refresh_empty_token_fails_before_network_witness :
    refresh_tokens (FileState.complete (AppConfig.toJson ⟨"i", "s"⟩))
      (FileState.complete (Tokens.toJson ⟨"A", "", 3600, 0⟩)) (Except.error ("x")) 7
      WriteOutcome.ok
    = (Except.error ("Brak refresh_token — zaloguj się ponownie"),
       FileState.complete (Tokens.toJson ⟨"A", "", 3600, 0⟩), false) :=
  c7_refresh_empty_token_fails_before_network
    (FileState.complete (AppConfig.toJson ⟨"i", "s"⟩))
    (FileState.complete (Tokens.toJson ⟨"A", "", 3600, 0⟩))
    (Except.error ("x")) 7 WriteOutcome.ok ⟨"i", "s"⟩ ⟨"A", "", 3600, 0⟩ rfl rfl rfl

/-- C8: the callback route always replies with the fixed confirmation
page, and a request whose query has no `code` key triggers no exchange
attempt and leaves the tokens file untouched. -/
theorem c8_callback_without_code_is_noop :
    (∀ (params : List (String × String)) (cfgFs tokFs : FileState)
       (net : Except String Json) (now : Nat),
      (callback_handler params cfgFs tokFs net now).1 = confirmation_html)
    ∧ (∀ (params : List (String × String)) (cfgFs tokFs : FileState)
         (net : Except String Json) (now : Nat),
        params.find? (fun p => p.1 == "code") = none →
        callback_handler params cfgFs tokFs net now = (confirmation_html, tokFs, false)) := by
  constructor
  · intro params cfgFs tokFs net now
    unfold callback_handler
    cases (params.find? (fun p => p.1 == "code")).map Prod.snd with
    | none => rfl
    | some code =>
      cases h : (exchange_and_persist cfgFs tokFs net now).1 <;> simp [h]
  · intro params cfgFs tokFs net now h
    simp [callback_handler, h]

/-- C8 witness: a GET with only a `state` query parameter. -/
theorem c8_callback_without_code_is_noop_witness :
    callback_handler [("state", "xyz")] FileState.absent FileState.absent
      (Except.error ("n")) 0
    = (confirmation_html, FileState.absent, false) :=
  c8_callback_without_code_is_noop.2 [("state", "xyz")] FileState.absent FileState.absent
    (Except.error ("n")) 0 rfl

/-- C9: loading immediately after a completed save returns exactly the
record that was saved, for both persisted record kinds. -/
theorem c9_roundtrip_load_after_save :
    (∀ (s : FileState) (c : AppConfig), read_config_from_dir (write_config_to_dir s c) = some c)
    ∧ (∀ (s : FileState) (t : Tokens), read_tokens_from_dir (write_tokens_to_dir s t) = some t) :=
  ⟨fun _ _ => rfl, fun _ _ => rfl⟩

/-- C10: `check_tokens` never returns an error; a missing or corrupt
store yields the all-default record (empty strings, zero numbers), and
that outcome is indistinguishable from a store holding a saved
all-default record. -/
theorem c10_check_tokens_never_errors :
    (∀ fs : FileState, ∃ t : Tokens, check_tokens fs = Except.ok t)
    ∧ check_tokens FileState.absent = Except.ok ⟨"", "", 0, 0⟩
    ∧ check_tokens FileState.truncated = Except.ok ⟨"", "", 0, 0⟩
    ∧ check_tokens (FileState.complete []) = Except.ok ⟨"", "", 0, 0⟩
    ∧ check_tokens (write_tokens_to_dir FileState.absent ⟨"", "", 0, 0⟩)
        = check_tokens FileState.absent :=
  ⟨fun fs => ⟨(read_tokens_from_dir fs).getD ⟨"", "", 0, 0⟩, rfl⟩, rfl, rfl, rfl, rfl⟩

end YtOauth
